import Mathlib

/-!
Verification of the `db` package (a database connectivity layer):
engine registry lifecycle, UnitOfWork transaction boundary, health probe,
and the package's export surface.

The file embeds `src/db/__init__.py` directly; the implementation modules
it imports (`configuration.settings`, `core.engine`, `core.health`,
`session.dependencies`, `session.unit_of_work`) are not in the repository
snapshot, so their behaviour is modelled from the specification, with each
such definition marked `Modelled from the spec:`.
-/

namespace Db

/-- The `__all__` export list of `src/db/__init__.py`, verbatim. -/
def dunderAll : List String :=
  [ "DatabaseSettings"
  , "UnitOfWork"
  , "check_database_health"
  , "dispose_engine"
  , "get_db_session"
  , "get_engine"
  , "get_sessionmaker" ]

/-- The names bound by the top-level `from ... import ...` statements of
`src/db/__init__.py`, in source order. -/
def topLevelImports : List String :=
  [ "DatabaseSettings"
  , "dispose_engine"
  , "get_engine"
  , "get_sessionmaker"
  , "check_database_health"
  , "get_db_session"
  , "UnitOfWork" ]

/-- The five entry points that section 6 of the specification names as the
entire upward interface to application code. -/
def sectionSixSurface : List String :=
  [ "get_engine"
  , "get_sessionmaker"
  , "dispose_engine"
  , "check_database_health"
  , "UnitOfWork" ]

/-- Modelled from the spec: the UnitOfWork lifecycle states
`{OPEN, COMMITTED, ROLLED_BACK, CLOSED}` (spec section 3, `UnitOfWork`). -/
inductive UowState
  | OPEN
  | COMMITTED
  | ROLLED_BACK
  | CLOSED
deriving DecidableEq, Repr

/-- Modelled from the spec: the typed errors of the error taxonomy relevant
to the UnitOfWork (spec section 7). `CommitError` and `RollbackError`
carry the original backend failure as cause; `WorkError` stands for an
arbitrary failure raised by the work enclosed in a scope. -/
inductive DbError
  | TransactionError
  | CommitError (cause : Nat)
  | RollbackError (cause : Nat)
  | WorkError (code : Nat)
deriving DecidableEq, Repr

/-- Modelled from the spec: behaviour of the opaque storage backend for one
transaction — whether the backend commit / rollback commands fail, and with
which backend error code. -/
structure Backend where
  commitFails : Option Nat
  rollbackFails : Option Nat
deriving DecidableEq, Repr

/-- Modelled from the spec: a Session checked out from the pool; `txOpen`
records whether a transaction is already open on it (spec section 4.3,
nesting policy). -/
structure Session where
  txOpen : Bool
deriving DecidableEq, Repr

/-- Modelled from the spec: what a UnitOfWork caller observes on failure —
the primary error, with a rollback-internal error (if any) attached as
secondary context, never replacing the primary cause (spec sections 4.3, 7). -/
structure Raised where
  primary : DbError
  context : Option DbError := none
deriving DecidableEq, Repr

namespace UnitOfWork

/-- Modelled from the spec: `begin()` — acquires the session, issues a
begin-transaction command and transitions to OPEN; fails with
`TransactionError` if a transaction is already open on the held session
(spec section 4.3). On failure nothing is changed. -/
def begin (sess : Session) : Except DbError (UowState × Session) :=
  if sess.txOpen then Except.error DbError.TransactionError
  else Except.ok (UowState.OPEN, { txOpen := true })

/-- Modelled from the spec: `commit()` — valid only from OPEN; issues the
backend commit command and transitions to COMMITTED; if the commit command
itself fails, transitions to ROLLED_BACK instead (best-effort automatic
rollback) and re-raises the failure as a `CommitError` carrying the original
failure as cause (spec section 4.3). Calling it from any other state is
reentrant misuse, a `TransactionError`. -/
def commit (st : UowState) (be : Backend) : UowState × Except DbError Unit :=
  match st with
  | UowState.OPEN =>
    match be.commitFails with
    | none => (UowState.COMMITTED, Except.ok ())
    | some c => (UowState.ROLLED_BACK, Except.error (DbError.CommitError c))
  | s => (s, Except.error DbError.TransactionError)

/-- Modelled from the spec: `rollback()` — valid from OPEN; issues the
backend rollback command and transitions to ROLLED_BACK; a rollback failure
is surfaced as `RollbackError` but does not prevent the session from being
released (spec section 4.3). -/
def rollback (st : UowState) (be : Backend) : UowState × Except DbError Unit :=
  match st with
  | UowState.OPEN =>
    match be.rollbackFails with
    | none => (UowState.ROLLED_BACK, Except.ok ())
    | some c => (UowState.ROLLED_BACK, Except.error (DbError.RollbackError c))
  | s => (s, Except.error DbError.TransactionError)

end UnitOfWork

/-- The observable outcome of one scoped UnitOfWork use: the sequence of
lifecycle states traversed, how many backend commit / rollback commands were
issued, how many times the session was released back to the pool, and what
the caller observes. -/
structure ScopeResult where
  path : List UowState
  commitsIssued : Nat
  rollbacksIssued : Nat
  releases : Nat
  outcome : Except Raised Unit
deriving Repr

/-- Modelled from the spec: scoped usage of a UnitOfWork on a fresh session
(spec section 4.3) — entering the scope calls `begin()` (state OPEN); the
enclosed work either completes (`work = none`) or raises error code `w`
(`work = some w`); normal exit calls `commit()`; exit via an unhandled
failure calls `rollback()` and re-raises the original failure with the
rollback error, if any, attached as context; the transition to CLOSED
releases the session exactly once on every exit path. -/
def runScope (be : Backend) (work : Option Nat) : ScopeResult :=
  match work with
  | none =>
    match UnitOfWork.commit UowState.OPEN be with
    | (st, Except.ok ()) =>
      { path := [UowState.OPEN, st, UowState.CLOSED]
      , commitsIssued := 1, rollbacksIssued := 0, releases := 1
      , outcome := Except.ok () }
    | (st, Except.error e) =>
      { path := [UowState.OPEN, st, UowState.CLOSED]
      , commitsIssued := 1, rollbacksIssued := 1, releases := 1
      , outcome := Except.error { primary := e } }
  | some w =>
    match UnitOfWork.rollback UowState.OPEN be with
    | (st, Except.ok ()) =>
      { path := [UowState.OPEN, st, UowState.CLOSED]
      , commitsIssued := 0, rollbacksIssued := 1, releases := 1
      , outcome := Except.error { primary := DbError.WorkError w } }
    | (st, Except.error re) =>
      { path := [UowState.OPEN, st, UowState.CLOSED]
      , commitsIssued := 0, rollbacksIssued := 1, releases := 1
      , outcome := Except.error { primary := DbError.WorkError w, context := some re } }

/-- Modelled from the spec: starting a second UnitOfWork on the session held
by a first UnitOfWork (spec section 4.3, nesting policy). Returns the result
of the second `begin()` together with the first UnitOfWork's state after the
attempt. -/
def startSecond (first : UowState) (sess : Session) :
    Except DbError UowState × UowState :=
  match UnitOfWork.begin sess with
  | Except.error e => (Except.error e, first)
  | Except.ok (st, _) => (Except.ok st, first)

/-- Modelled from the spec: `ConnectionSettings` — an immutable value object
holding the connection string and pool-sizing parameters (spec section 3). -/
structure ConnectionSettings where
  dsn : String
  pool_min_size : Nat
  pool_max_size : Nat
deriving DecidableEq, Repr

/-- Modelled from the spec: an `Engine` owns a connection pool and is
identified by the settings it was built from (spec section 3); `gen` is the
construction generation, distinguishing an engine instance from any engine
built earlier or later in the process. -/
structure Engine where
  settings : ConnectionSettings
  gen : Nat
deriving DecidableEq, Repr

/-- Modelled from the spec: `ConfigurationError`, raised when engine
construction is attempted with malformed settings (spec sections 4.1, 7). -/
inductive EngineError
  | ConfigurationError
deriving DecidableEq, Repr

/-- Modelled from the spec: the process-wide `EngineRegistry` state — at most
one live engine instance, plus the generation counter for the next
construction (spec sections 2, 4.1). -/
structure Registry where
  engine : Option Engine
  nextGen : Nat
deriving DecidableEq, Repr

/-- The initial registry state at process start: no engine. -/
def Registry.empty : Registry := { engine := none, nextGen := 0 }

/-- A registry is well formed when any stored engine was built at a
generation strictly below the next one. `Registry.empty` is well formed and
the registry operations preserve well-formedness. -/
def Registry.WF (r : Registry) : Prop :=
  ∀ e, r.engine = some e → e.gen < r.nextGen

/-- Modelled from the spec: settings validation — construction fails with a
`ConfigurationError` if settings are malformed: empty dsn, or pool bounds out
of order (spec sections 3, 4.1). -/
def ConnectionSettings.malformed (s : ConnectionSettings) : Bool :=
  s.dsn = "" || s.pool_max_size < s.pool_min_size

/-- Modelled from the spec: `get_engine(settings)` — returns the existing
engine if one matching the settings identity is live; otherwise constructs
one and stores it as the process-wide instance; construction fails with a
`ConfigurationError` on malformed settings (spec section 4.1). Returns the
engine together with the updated registry state. -/
def get_engine (r : Registry) (s : ConnectionSettings) :
    Except EngineError (Engine × Registry) :=
  if s.malformed then Except.error EngineError.ConfigurationError
  else
    match r.engine with
    | some e =>
      if e.settings = s then Except.ok (e, r)
      else
        let e2 : Engine := { settings := s, gen := r.nextGen }
        Except.ok (e2, { engine := some e2, nextGen := r.nextGen + 1 })
    | none =>
      let e2 : Engine := { settings := s, gen := r.nextGen }
      Except.ok (e2, { engine := some e2, nextGen := r.nextGen + 1 })

/-- Modelled from the spec: `dispose_engine()` — closes the pool, clears the
stored singleton so a subsequent `get_engine` rebuilds from scratch; safe to
call when no engine exists (a no-op, never raising) (spec section 4.1). -/
def dispose_engine (r : Registry) : Registry :=
  { engine := none, nextGen := r.nextGen }

/-- Modelled from the spec: `HealthStatus` — { healthy, optional error
detail, optional latency }, produced per probe call (spec section 3). -/
structure HealthStatus where
  healthy : Bool
  error : Option String
  latency : Option Nat
deriving DecidableEq, Repr

/-- Modelled from the spec: the behaviour of the backend as seen by one
health probe — the round trip succeeds with some latency, the connection is
refused, or the probe query fails (spec section 4.4). -/
inductive ProbeBackend
  | roundTripOk (latencyMs : Nat)
  | connectRefused (detail : String)
  | queryFails (detail : String)
deriving DecidableEq, Repr

/-- Modelled from the spec: `check_database_health()` — acquires a session,
issues a minimal round-trip statement, measures latency, releases the
session; never raises to the caller: connectivity failures are captured and
returned as `HealthStatus{healthy: false, error: ...}` (spec section 4.4).
Totality of this function is the embedding of never raising. -/
def check_database_health (be : ProbeBackend) : HealthStatus :=
  match be with
  | ProbeBackend.roundTripOk l =>
    { healthy := true, error := none, latency := some l }
  | ProbeBackend.connectRefused d =>
    { healthy := false, error := some d, latency := none }
  | ProbeBackend.queryFails d =>
    { healthy := false, error := some d, latency := none }

/-- `true` iff each adjacent pair of the list is strictly increasing under
the lexicographic string order (hence the list is sorted and duplicate-free). -/
def isStrictlyAscending : List String → Bool
  | a :: b :: rest => (compare a b == Ordering.lt) && isStrictlyAscending (b :: rest)
  | _ => true

end Db

/-- Helper: a successful `get_engine` stores the returned engine as the live
singleton, the engine carries the requested settings, and the settings were
well formed. -/
theorem get_engine_ok (r : Db.Registry) (s : Db.ConnectionSettings)
    (e : Db.Engine) (r' : Db.Registry)
    (h : Db.get_engine r s = Except.ok (e, r')) :
    r'.engine = some e ∧ e.settings = s ∧ s.malformed = false := by
  unfold Db.get_engine at h
  split at h
  · exact Except.noConfusion h
  · rename_i hm
    simp only [Bool.not_eq_true] at hm
    split at h
    · rename_i e0 hre
      split at h
      · rename_i hs
        simp only [Except.ok.injEq, Prod.mk.injEq] at h
        obtain ⟨he, hr⟩ := h
        subst he; subst hr
        exact ⟨hre, hs, hm⟩
      · simp only [Except.ok.injEq, Prod.mk.injEq] at h
        obtain ⟨he, hr⟩ := h
        subst he; subst hr
        exact ⟨rfl, rfl, hm⟩
    · simp only [Except.ok.injEq, Prod.mk.injEq] at h
      obtain ⟨he, hr⟩ := h
      subst he; subst hr
      exact ⟨rfl, rfl, hm⟩

/-- Helper: under the registry well-formedness invariant, a successful
`get_engine` returns an engine of generation strictly below the resulting
registry's next generation, and preserves well-formedness. -/
theorem get_engine_gen_lt (r : Db.Registry) (s : Db.ConnectionSettings)
    (e : Db.Engine) (r' : Db.Registry) (hwf : r.WF)
    (h : Db.get_engine r s = Except.ok (e, r')) :
    e.gen < r'.nextGen ∧ r'.WF := by
  unfold Db.get_engine at h
  split at h
  · exact Except.noConfusion h
  · split at h
    · rename_i e0 hre
      split at h
      · simp only [Except.ok.injEq, Prod.mk.injEq] at h
        obtain ⟨he, hr⟩ := h
        subst he; subst hr
        exact ⟨hwf e0 hre, hwf⟩
      · simp only [Except.ok.injEq, Prod.mk.injEq] at h
        obtain ⟨he, hr⟩ := h
        subst he; subst hr
        refine ⟨Nat.lt_succ_self _, ?_⟩
        intro e1 he1
        cases he1
        exact Nat.lt_succ_self _
    · simp only [Except.ok.injEq, Prod.mk.injEq] at h
      obtain ⟨he, hr⟩ := h
      subst he; subst hr
      refine ⟨Nat.lt_succ_self _, ?_⟩
      intro e1 he1
      cases he1
      exact Nat.lt_succ_self _

/-- Helper: `get_engine` on a registry with no live engine constructs a fresh
engine at the current generation and stores it. -/
theorem get_engine_none (g : Nat) (s : Db.ConnectionSettings)
    (hs : s.malformed = false) :
    Db.get_engine { engine := none, nextGen := g } s =
      Except.ok ({ settings := s, gen := g },
        { engine := some { settings := s, gen := g }, nextGen := g + 1 }) := by
  simp [Db.get_engine, hs]

/-- C7: `get_engine` is idempotent — a repeated call with the same settings
on the registry state produced by a successful call returns the very same
engine instance and leaves the registry unchanged, so every call of a
sequence with identical settings and no intervening disposal returns the
engine of the first call. -/
theorem c7_engine_singleton (r : Db.Registry) (s : Db.ConnectionSettings)
    (e : Db.Engine) (r' : Db.Registry)
    (h : Db.get_engine r s = Except.ok (e, r')) :
    Db.get_engine r' s = Except.ok (e, r') := by
  obtain ⟨h1, h2, h3⟩ := get_engine_ok r s e r' h
  simp [Db.get_engine, h1, h2, h3]

/-- Witness for C7 at a concrete registry and settings. -/
theorem c7_engine_singleton_witness :
    Db.get_engine
        { engine := some { settings := { dsn := "postgres://db", pool_min_size := 1, pool_max_size := 5 }, gen := 0 }
        , nextGen := 1 }
        { dsn := "postgres://db", pool_min_size := 1, pool_max_size := 5 } =
      Except.ok
        ({ settings := { dsn := "postgres://db", pool_min_size := 1, pool_max_size := 5 }, gen := 0 },
         { engine := some { settings := { dsn := "postgres://db", pool_min_size := 1, pool_max_size := 5 }, gen := 0 }
         , nextGen := 1 }) :=
  c7_engine_singleton Db.Registry.empty
    { dsn := "postgres://db", pool_min_size := 1, pool_max_size := 5 }
    { settings := { dsn := "postgres://db", pool_min_size := 1, pool_max_size := 5 }, gen := 0 }
    { engine := some { settings := { dsn := "postgres://db", pool_min_size := 1, pool_max_size := 5 }, gen := 0 }
    , nextGen := 1 }
    rfl

/-- C8: after `dispose_engine`, the next `get_engine` call constructs a new
engine instance distinct from the disposed one, and disposal of an empty
registry is a no-op (disposal is total, hence never raises when no engine
exists). -/
theorem c8_dispose_then_fresh (r : Db.Registry) (s : Db.ConnectionSettings)
    (e e2 : Db.Engine) (r' r2 : Db.Registry) (hwf : r.WF)
    (h1 : Db.get_engine r s = Except.ok (e, r'))
    (h2 : Db.get_engine (Db.dispose_engine r') s = Except.ok (e2, r2)) :
    e2 ≠ e ∧ Db.dispose_engine Db.Registry.empty = Db.Registry.empty := by
  obtain ⟨-, -, hs⟩ := get_engine_ok r s e r' h1
  obtain ⟨hlt, -⟩ := get_engine_gen_lt r s e r' hwf h1
  have hd : Db.dispose_engine r' = { engine := none, nextGen := r'.nextGen } := rfl
  rw [hd, get_engine_none r'.nextGen s hs] at h2
  simp only [Except.ok.injEq, Prod.mk.injEq] at h2
  obtain ⟨he2, -⟩ := h2
  refine ⟨?_, rfl⟩
  intro hcontra
  rw [hcontra] at he2
  have : e.gen = r'.nextGen := by rw [← he2]
  exact absurd hlt (by rw [this]; exact Nat.lt_irrefl _)

/-- Witness for C8 at a concrete registry history. -/
theorem c8_dispose_then_fresh_witness :
    ({ settings := { dsn := "postgres://db", pool_min_size := 1, pool_max_size := 5 }, gen := 1 } : Db.Engine) ≠
      { settings := { dsn := "postgres://db", pool_min_size := 1, pool_max_size := 5 }, gen := 0 } ∧
    Db.dispose_engine Db.Registry.empty = Db.Registry.empty :=
  c8_dispose_then_fresh Db.Registry.empty
    { dsn := "postgres://db", pool_min_size := 1, pool_max_size := 5 }
    { settings := { dsn := "postgres://db", pool_min_size := 1, pool_max_size := 5 }, gen := 0 }
    { settings := { dsn := "postgres://db", pool_min_size := 1, pool_max_size := 5 }, gen := 1 }
    { engine := some { settings := { dsn := "postgres://db", pool_min_size := 1, pool_max_size := 5 }, gen := 0 }
    , nextGen := 1 }
    { engine := some { settings := { dsn := "postgres://db", pool_min_size := 1, pool_max_size := 5 }, gen := 1 }
    , nextGen := 2 }
    (fun _ h => Option.noConfusion h) rfl rfl

/-- C9: `check_database_health` is a total function (the embedding of never
raising), and on every backend behaviour other than a successful round trip
it returns `healthy = false` with a non-null error detail. -/
theorem c9_health_never_raises (be : Db.ProbeBackend)
    (h : ∀ l, be ≠ Db.ProbeBackend.roundTripOk l) :
    (Db.check_database_health be).healthy = false ∧
    (Db.check_database_health be).error.isSome = true := by
  cases be with
  | roundTripOk l => exact absurd rfl (h l)
  | connectRefused d => exact ⟨rfl, rfl⟩
  | queryFails d => exact ⟨rfl, rfl⟩

/-- Witness for C9 at a backend that refuses connections. -/
theorem c9_health_never_raises_witness :
    (Db.check_database_health (Db.ProbeBackend.connectRefused "connection refused")).healthy = false ∧
    (Db.check_database_health (Db.ProbeBackend.connectRefused "connection refused")).error.isSome = true :=
  c9_health_never_raises (Db.ProbeBackend.connectRefused "connection refused")
    (fun _ h => Db.ProbeBackend.noConfusion h)

/-- C2: every scoped UnitOfWork use starts at OPEN and reaches exactly one of
COMMITTED or ROLLED_BACK before CLOSED, and the transition to CLOSED releases
the session exactly once on every exit path, including abnormal termination
of the enclosed work. -/
theorem c2_lifecycle (be : Db.Backend) (work : Option Nat) :
    ∃ mid, (Db.runScope be work).path = [Db.UowState.OPEN, mid, Db.UowState.CLOSED] ∧
      (mid = Db.UowState.COMMITTED ∨ mid = Db.UowState.ROLLED_BACK) ∧
      (Db.runScope be work).releases = 1 := by
  obtain ⟨cf, rf⟩ := be
  cases work with
  | none =>
    cases cf with
    | none => exact ⟨Db.UowState.COMMITTED, rfl, Or.inl rfl, rfl⟩
    | some c => exact ⟨Db.UowState.ROLLED_BACK, rfl, Or.inr rfl, rfl⟩
  | some w =>
    cases rf with
    | none => exact ⟨Db.UowState.ROLLED_BACK, rfl, Or.inr rfl, rfl⟩
    | some c => exact ⟨Db.UowState.ROLLED_BACK, rfl, Or.inr rfl, rfl⟩

/-- C3: a scope whose enclosed work completes without error (and whose
backend commit succeeds) commits exactly once, rolls back never, releases the
session exactly once, and the caller observes success. -/
theorem c3_success_path (be : Db.Backend) (h : be.commitFails = none) :
    Db.runScope be none =
      { path := [Db.UowState.OPEN, Db.UowState.COMMITTED, Db.UowState.CLOSED]
      , commitsIssued := 1, rollbacksIssued := 0, releases := 1
      , outcome := Except.ok () } := by
  obtain ⟨cf, rf⟩ := be
  cases cf with
  | none => rfl
  | some c => exact Option.noConfusion h

/-- Witness for C3 at a concrete backend. -/
theorem c3_success_path_witness :
    Db.runScope { commitFails := none, rollbackFails := none } none =
      { path := [Db.UowState.OPEN, Db.UowState.COMMITTED, Db.UowState.CLOSED]
      , commitsIssued := 1, rollbacksIssued := 0, releases := 1
      , outcome := Except.ok () } :=
  c3_success_path { commitFails := none, rollbackFails := none } rfl

/-- C4: a scope whose enclosed work raises rolls back exactly once, releases
the session exactly once, and the caller observes the original work error as
the primary failure; a rollback-internal error, when the backend rollback
fails, is attached only as secondary context. -/
theorem c4_failure_path (be : Db.Backend) (w : Nat) :
    (Db.runScope be (some w)).rollbacksIssued = 1 ∧
    (Db.runScope be (some w)).releases = 1 ∧
    ∃ ctx, (Db.runScope be (some w)).outcome =
        Except.error { primary := Db.DbError.WorkError w, context := ctx } ∧
      (ctx = none ∨
        ∃ c, be.rollbackFails = some c ∧ ctx = some (Db.DbError.RollbackError c)) := by
  obtain ⟨cf, rf⟩ := be
  cases rf with
  | none => exact ⟨rfl, rfl, none, rfl, Or.inl rfl⟩
  | some c =>
    exact ⟨rfl, rfl, some (Db.DbError.RollbackError c), rfl, Or.inr ⟨c, rfl, rfl⟩⟩

/-- C5: calling `commit()` from OPEN when the backend commit command fails
transitions the UnitOfWork to ROLLED_BACK (not COMMITTED) and re-raises the
failure as a `CommitError` carrying the original failure as cause. -/
theorem c5_commit_failure (be : Db.Backend) (c : Nat) (h : be.commitFails = some c) :
    Db.UnitOfWork.commit Db.UowState.OPEN be =
      (Db.UowState.ROLLED_BACK, Except.error (Db.DbError.CommitError c)) := by
  obtain ⟨cf, rf⟩ := be
  cases cf with
  | none => exact Option.noConfusion h
  | some c2 =>
    cases Option.some.inj h
    rfl

/-- Witness for C5 at a concrete backend failure. -/
theorem c5_commit_failure_witness :
    Db.UnitOfWork.commit Db.UowState.OPEN
        { commitFails := some 7, rollbackFails := none } =
      (Db.UowState.ROLLED_BACK, Except.error (Db.DbError.CommitError 7)) :=
  c5_commit_failure { commitFails := some 7, rollbackFails := none } 7 rfl

/-- C6: starting a second UnitOfWork on a session that already has an open
transaction fails with `TransactionError`, and the first UnitOfWork's state
is unchanged by the failed attempt. -/
theorem c6_no_reentrant (first : Db.UowState) (sess : Db.Session)
    (h : sess.txOpen = true) :
    Db.startSecond first sess = (Except.error Db.DbError.TransactionError, first) := by
  obtain ⟨t⟩ := sess
  cases t with
  | true => rfl
  | false => exact Bool.noConfusion h

/-- Witness for C6 at a concrete open session. -/
theorem c6_no_reentrant_witness :
    Db.startSecond Db.UowState.OPEN { txOpen := true } =
      (Except.error Db.DbError.TransactionError, Db.UowState.OPEN) :=
  c6_no_reentrant Db.UowState.OPEN { txOpen := true } rfl

/-- C1 counterexample: the claim that the public surface consists of exactly
the five section-6 entry points is false — `__all__` also exports
`get_db_session` (and `DatabaseSettings`). -/
theorem c1_counterexample :
    ¬ (∀ n : String, n ∈ Db.dunderAll ↔ n ∈ Db.sectionSixSurface) := by
  intro h
  have := (h "get_db_session").mp (by decide)
  exact absurd this (by decide)

/-- C1 (amended): the public surface contains the five section-6 entry
points, and the only further exported names are `DatabaseSettings` and
`get_db_session`: seven names in all. -/
theorem c1_public_surface_amended :
    (∀ n ∈ Db.sectionSixSurface, n ∈ Db.dunderAll) ∧
    (∀ n ∈ Db.dunderAll,
      n ∈ Db.sectionSixSurface ∨ n = "DatabaseSettings" ∨ n = "get_db_session") ∧
    Db.dunderAll.length = 7 := by
  refine ⟨by decide, by decide, by decide⟩

/-- C10: `__all__` is exactly the seven listed names, strictly increasing
(hence duplicate-free and sorted), and every name imported at the top level
of the module appears in it. -/
theorem c10_dunder_all_exact :
    Db.dunderAll =
      [ "DatabaseSettings", "UnitOfWork", "check_database_health"
      , "dispose_engine", "get_db_session", "get_engine", "get_sessionmaker" ] ∧
    Db.isStrictlyAscending Db.dunderAll = true ∧
    Db.dunderAll.Nodup ∧
    (∀ n ∈ Db.topLevelImports, n ∈ Db.dunderAll) := by
  refine ⟨rfl, by decide, by decide, by decide⟩
